import Mathlib

/-!
Verification of the CrawlerPro operational-resilience core against its
specification.  The Lean definitions below are a shallow embedding of the
Python modules `src/retry_system.py`, `src/health_monitor.py`,
`src/exceptions.py` and `src/metrics.py`: Python floats are modelled as
rationals, wall-clock reads (`time.time()`) become explicit `now`
parameters, exceptions become an explicit datatype with the class
hierarchy of `exceptions.py`, and the mutable attributes of each object
become explicit state records threaded through the functions.
-/

set_option maxHeartbeats 1000000

/-! ## Exception model (`src/exceptions.py`)

Concrete exception classes that appear in the retry system, plus the
built-in Python classes it mentions.  `isInstanceOf c d` models Python's
`isinstance(e, D)` for an exception object of concrete class `c`:
all the crawler exceptions are direct subclasses of
`CrawlerBaseException`, and everything is a subclass of `Exception`.
-/

inductive ExcClass where
  | networkException
  | parsingException
  | validationException
  | configException
  | rateLimitException
  | blockedException
  | dataQualityException
  | crawlerBaseException
  | connectionError
  | timeoutError
  | valueError
  | typeError
  | exception
  deriving DecidableEq, Repr

/-- Direct-or-reflexive subclasses of `CrawlerBaseException`. -/
def ExcClass.isCrawlerClass : ExcClass → Bool
  | .networkException => true
  | .parsingException => true
  | .validationException => true
  | .configException => true
  | .rateLimitException => true
  | .blockedException => true
  | .dataQualityException => true
  | .crawlerBaseException => true
  | _ => false

/-- `isInstanceOf c d = true` iff an object of concrete class `c`
satisfies `isinstance(obj, d)` in Python. -/
def isInstanceOf (c d : ExcClass) : Bool :=
  c = d || (d = .crawlerBaseException && c.isCrawlerClass) || d = .exception

/-- `type(e).__name__` for each modelled class. -/
def ExcClass.pyName : ExcClass → String
  | .networkException => "NetworkException"
  | .parsingException => "ParsingException"
  | .validationException => "ValidationException"
  | .configException => "ConfigurationException"
  | .rateLimitException => "RateLimitException"
  | .blockedException => "BlockedException"
  | .dataQualityException => "DataQualityException"
  | .crawlerBaseException => "CrawlerBaseException"
  | .connectionError => "ConnectionError"
  | .timeoutError => "TimeoutError"
  | .valueError => "ValueError"
  | .typeError => "TypeError"
  | .exception => "Exception"

/-- An exception object: its concrete class and the value of
`context.get("status_code")` (`none` models both an absent key and a
stored Python `None`; `None in [...]` is `False`, matching the `none`
branch of the lookups below). -/
structure PyExc where
  cls : ExcClass
  statusCode : Option Int
  deriving DecidableEq, Repr

/-! ## RetryPolicy (`src/retry_system.py` lines 24-176) -/

inductive BackoffStrategy where
  | linear
  | exponential
  | fibonacci
  | fixed
  deriving DecidableEq, Repr

/-- Immutable configuration of a `RetryPolicy` after `__init__` ran. -/
structure RetryPolicy where
  maxAttempts : Nat
  baseDelay : ℚ
  maxDelay : ℚ
  backoffStrategy : BackoffStrategy
  jitter : Bool
  retryableExceptions : List ExcClass
  nonRetryableExceptions : List ExcClass
  retryOnStatusCodes : List Int
  circuitBreakerThreshold : Nat

/-- Mutable attributes of a `RetryPolicy`
(`_failure_count`, `_circuit_open`, `_last_failure_time`). -/
structure RetryState where
  failureCount : Nat
  circuitOpen : Bool
  lastFailureTime : ℚ
  deriving DecidableEq, Repr

def initialRetryState : RetryState :=
  { failureCount := 0, circuitOpen := false, lastFailureTime := 0 }

def defaultRetryable : List ExcClass :=
  [.networkException, .rateLimitException, .connectionError, .timeoutError]

def defaultNonRetryable : List ExcClass :=
  [.blockedException, .valueError, .typeError]

def defaultStatusCodes : List Int := [429, 500, 502, 503, 504]

/-- Python's `arg or default` applied to an optional list argument:
`None` and the empty list are falsy, so both select the default. -/
def orDefault (arg : Option (List α)) (dflt : List α) : List α :=
  match arg with
  | none => dflt
  | some [] => dflt
  | some l => l

/-- `RetryPolicy.__init__` (lines 39-83): caller-supplied exception and
status-code lists replace the defaults entirely when non-empty. -/
def mkRetryPolicy (maxAttempts : Nat) (baseDelay maxDelay : ℚ)
    (backoffStrategy : BackoffStrategy) (jitter : Bool)
    (retryableArg nonRetryableArg : Option (List ExcClass))
    (statusArg : Option (List Int)) (circuitBreakerThreshold : Nat) :
    RetryPolicy :=
  { maxAttempts := maxAttempts
    baseDelay := baseDelay
    maxDelay := maxDelay
    backoffStrategy := backoffStrategy
    jitter := jitter
    retryableExceptions := orDefault retryableArg defaultRetryable
    nonRetryableExceptions := orDefault nonRetryableArg defaultNonRetryable
    retryOnStatusCodes := orDefault statusArg defaultStatusCodes
    circuitBreakerThreshold := circuitBreakerThreshold }

/-- `RetryPolicy()` with all defaults. -/
def defaultPolicy : RetryPolicy :=
  mkRetryPolicy 3 1 60 .exponential true none none none 5

/-- `any(isinstance(e, t) for t in l)`. -/
def matchesAny (e : PyExc) (l : List ExcClass) : Bool :=
  l.any (fun c => isInstanceOf e.cls c)

/-- The non-circuit part of `should_retry` (lines 105-125): attempt
limit, then non-retryable classes, then retryable classes, then the
HTTP-status fallback, which is guarded by
`isinstance(exception, NetworkException)`. -/
def shouldRetryEval (p : RetryPolicy) (e : PyExc) (attempt : Nat) : Bool :=
  if p.maxAttempts ≤ attempt then false
  else if matchesAny e p.nonRetryableExceptions then false
  else if matchesAny e p.retryableExceptions then true
  else if isInstanceOf e.cls .networkException then
    match e.statusCode with
    | some s => p.retryOnStatusCodes.contains s
    | none => false
  else false

/-- `RetryPolicy.should_retry` (lines 86-125).  `now` is the value of
`time.time()` during the call.  Returns the decision together with the
possibly-updated circuit-breaker state (the circuit auto-closes when
strictly more than 60 seconds have elapsed since the last failure). -/
def shouldRetry (p : RetryPolicy) (st : RetryState) (e : PyExc)
    (attempt : Nat) (now : ℚ) : Bool × RetryState :=
  if st.circuitOpen then
    if 60 < now - st.lastFailureTime then
      let st' : RetryState :=
        { st with circuitOpen := false, failureCount := 0 }
      (shouldRetryEval p e attempt, st')
    else
      (false, st)
  else
    (shouldRetryEval p e attempt, st)

/-- `RetryPolicy.record_failure` (lines 155-161). -/
def recordFailure (p : RetryPolicy) (st : RetryState) (now : ℚ) :
    RetryState :=
  let st' : RetryState :=
    { st with failureCount := st.failureCount + 1, lastFailureTime := now }
  if p.circuitBreakerThreshold ≤ st'.failureCount then
    { st' with circuitOpen := true }
  else
    st'

/-- `RetryPolicy.record_success` (lines 163-166). -/
def recordSuccess (st : RetryState) : RetryState :=
  { st with failureCount := 0, circuitOpen := false }

/-- `RetryPolicy._fibonacci`'s loop: `k` remaining iterations of
`a, b = b, a + b`, returning the final `b`. -/
def fibAux : Nat → Nat → Nat → Nat
  | 0, _, b => b
  | k + 1, a, b => fibAux k b (a + b)

/-- `RetryPolicy._fibonacci` (lines 168-176): `1` for `n ≤ 2`, else the
loop `for _ in range(3, n + 1)` starting from `a = b = 1`. -/
def fibonacci (n : Nat) : Nat :=
  if n ≤ 2 then 1 else fibAux (n - 2) 1 1

/-- Base (pre-jitter) delay of `calculate_delay` (lines 137-146).
The exponent is the Python expression `attempt - 1` on ints, hence an
integer power. -/
def baseDelayValue (p : RetryPolicy) (attempt : Nat) : ℚ :=
  match p.backoffStrategy with
  | .fixed => p.baseDelay
  | .linear => p.baseDelay * attempt
  | .exponential => p.baseDelay * (2 : ℚ) ^ ((attempt : ℤ) - 1)
  | .fibonacci => p.baseDelay * fibonacci attempt

/-- `RetryPolicy.calculate_delay` (lines 127-153).  `jitterFactor`
stands for the sampled value of `0.5 + random.random() * 0.5`, which
lies in `[1/2, 1)`; it multiplies the base delay only when jitter is
enabled, and the result is clamped to `maxDelay`. -/
def calculateDelay (p : RetryPolicy) (attempt : Nat) (jitterFactor : ℚ) :
    ℚ :=
  let d := baseDelayValue p attempt
  let d := if p.jitter then d * jitterFactor else d
  min d p.maxDelay

/-! ## RetryManager.execute_with_retry (`src/retry_system.py` lines 196-276)

The operation is modelled as a map from the (1-indexed) attempt number
to its outcome; `times` gives the value read from the wall clock during
attempt `i` (within one attempt the clock is read at `record_failure`
and possibly inside `should_retry`; both reads are modelled by the same
value `times i`).  The awaited back-off sleep does not affect any of the
observed quantities and is not modelled.
-/

structure ExecResult (α : Type) where
  result : Except PyExc α
  invocations : Nat
  successfulRetriesDelta : Nat
  finalState : RetryState

/-- When the `for` loop of `execute_with_retry` falls through with
`last_exception = None` (only possible when `max_attempts = 0`),
`raise None` raises a `TypeError`. -/
def raiseNone : PyExc := { cls := .typeError, statusCode := none }

/-- The loop of `execute_with_retry`, about to run attempt `attempt`
with `fuel` loop iterations remaining (`fuel = maxAttempts + 1 - attempt`
at the top-level call). -/
def execFrom (p : RetryPolicy) (op : Nat → Except PyExc α)
    (times : Nat → ℚ) : Nat → Nat → RetryState → Option PyExc →
    ExecResult α
  | 0, _, st, lastE =>
      { result := .error (lastE.getD raiseNone), invocations := 0,
        successfulRetriesDelta := 0, finalState := st }
  | fuel + 1, attempt, st, _ =>
      match op attempt with
      | .ok v =>
          { result := .ok v, invocations := 1,
            successfulRetriesDelta := if 1 < attempt then 1 else 0,
            finalState := recordSuccess st }
      | .error e =>
          let st₁ := recordFailure p st (times attempt)
          let r := shouldRetry p st₁ e attempt (times attempt)
          if r.1 then
            let rest := execFrom p op times fuel (attempt + 1) r.2 (some e)
            { result := rest.result, invocations := rest.invocations + 1,
              successfulRetriesDelta := rest.successfulRetriesDelta,
              finalState := rest.finalState }
          else
            { result := .error e, invocations := 1,
              successfulRetriesDelta := 0, finalState := r.2 }

/-- `RetryManager.execute_with_retry` under policy `p`, starting from
circuit-breaker state `st`. -/
def executeWithRetry (p : RetryPolicy) (st : RetryState)
    (op : Nat → Except PyExc α) (times : Nat → ℚ) : ExecResult α :=
  execFrom p op times p.maxAttempts 1 st none

/-! ## AdaptiveRateLimiter (`src/health_monitor.py` lines 75-219)

Concurrency: `acquire` waits on `asyncio.Semaphore(max_concurrent)` and
`release` posts it.  The semaphore is modelled by its permit count and a
trace of the `acquire`/`release` calls that have *completed*: an
`acquire` can only complete in a state with a positive permit count
(otherwise the caller stays suspended and contributes no event).  A
trace is well formed when each `release` is issued by a caller whose
`acquire` completed earlier, i.e. no prefix has more releases than
acquires.
-/

inductive LimiterEvent where
  | acquire
  | release
  deriving DecidableEq, Repr

/-- One completed semaphore operation: `acquire` needs a free permit,
`release` returns one. -/
def semStep (permits : Nat) : LimiterEvent → Option Nat
  | .acquire => if 0 < permits then some (permits - 1) else none
  | .release => some (permits + 1)

/-- Run a trace of completed operations from `permits` free permits. -/
def semRun (permits : Nat) : List LimiterEvent → Option Nat
  | [] => some permits
  | e :: es =>
      match semStep permits e with
      | some q => semRun q es
      | none => none

/-- Number of in-flight holders after the trace, starting from `held`
holders; `none` when some release is not matched by an earlier acquire
(such a trace is not well formed). -/
def inflightAfter : Nat → List LimiterEvent → Option Nat
  | held, [] => some held
  | held, .acquire :: es => inflightAfter (held + 1) es
  | held, .release :: es =>
      match held with
      | 0 => none
      | h + 1 => inflightAfter h es

/-! ### Adaptive delay (`release`/`_maybe_adjust_limits`, lines 130-201)

The mutable attributes `current_delay`, `_recent_response_times`,
`_recent_success_rates` and `_last_adjustment`, plus the constructor
parameters `min_delay`/`max_delay`, as one record.  Success is stored as
`1.0`/`0.0` exactly as the Python appends it.
-/

structure LimiterState where
  currentDelay : ℚ
  minDelay : ℚ
  maxDelay : ℚ
  recentResponseTimes : List ℚ
  recentSuccessRates : List ℚ
  lastAdjustment : ℚ
  deriving DecidableEq, Repr

/-- `avg_response_time` as `_maybe_adjust_limits` computes it:
`sum(self._recent_response_times) / len(self._recent_response_times)`. -/
def windowAvgResponse (s : LimiterState) : ℚ :=
  s.recentResponseTimes.sum / (s.recentResponseTimes.length : ℚ)

/-- `success_rate` as `_maybe_adjust_limits` computes it. -/
def windowSuccessRate (s : LimiterState) : ℚ :=
  s.recentSuccessRates.sum / (s.recentSuccessRates.length : ℚ)

/-- `AdaptiveRateLimiter._maybe_adjust_limits` (lines 155-201): a no-op
unless 30 seconds have elapsed since the last adjustment and the window
has at least 10 samples; otherwise the first matching rule fires and
stamps `_last_adjustment`. -/
def maybeAdjustLimits (s : LimiterState) (now : ℚ) : LimiterState :=
  if now - s.lastAdjustment < 30 then s
  else if s.recentResponseTimes.length < 10 then s
  else
    let avgResponseTime := windowAvgResponse s
    let successRate := windowSuccessRate s
    if successRate < 7 / 10 then
      { s with currentDelay := min (s.currentDelay * (3 / 2)) s.maxDelay,
               lastAdjustment := now }
    else if 5000 < avgResponseTime then
      { s with currentDelay := min (s.currentDelay * (6 / 5)) s.maxDelay,
               lastAdjustment := now }
    else if 19 / 20 < successRate ∧ avgResponseTime < 2000 then
      { s with currentDelay := max (s.currentDelay * (9 / 10)) s.minDelay,
               lastAdjustment := now }
    else s

/-- The windowing part of `AdaptiveRateLimiter.release` (lines 140-153):
append the sample, then `pop(0)` from both lists once the length
exceeds 50. -/
def appendSample (s : LimiterState) (success : Bool) (rt : ℚ) :
    LimiterState :=
  let s₁ : LimiterState :=
    { s with
      recentResponseTimes := s.recentResponseTimes ++ [rt],
      recentSuccessRates :=
        s.recentSuccessRates ++ [if success then 1 else 0] }
  if 50 < s₁.recentResponseTimes.length then
    { s₁ with
      recentResponseTimes := s₁.recentResponseTimes.tail,
      recentSuccessRates := s₁.recentSuccessRates.tail }
  else s₁

/-- State effect of `AdaptiveRateLimiter.release(success, response_time_ms)`
on the adaptive-delay state (the semaphore part is `semStep ... .release`). -/
def releaseUpdate (s : LimiterState) (success : Bool) (rt : ℚ)
    (now : ℚ) : LimiterState :=
  maybeAdjustLimits (appendSample s success rt) now

/-! ## MetricsCollector.track_request (`src/metrics.py` lines 296-346)

The tracker object yielded to the scope, the mutations the scope may
apply to it, and the context manager's exit protocol.  A scope execution
is the list of tracker mutations that actually ran, together with its
exit: normal return or a raised exception (mutations after a raise never
run, so they are simply absent from the list).  `end_request` is free of
observable effects other than recording its arguments, so the model
returns the list of `end_request` calls made. -/

inductive TrackAction where
  | markSuccess
  | markError (kind : String)
  | setResponseSize (n : Nat)
  | setRetryCount (n : Nat)
  deriving DecidableEq, Repr

/-- Mutable fields of the `RequestTracker` yielded by `track_request`. -/
structure TrackerState where
  success : Bool
  responseSize : Nat
  errorType : Option String
  retryCount : Nat
  deriving DecidableEq, Repr

def initTracker : TrackerState :=
  { success := false, responseSize := 0, errorType := none,
    retryCount := 0 }

/-- The four tracker methods (lines 317-328).  `mark_success` sets the
flag but leaves `error_type` alone; `mark_error` clears the flag and
records the kind. -/
def applyAction (t : TrackerState) : TrackAction → TrackerState
  | .markSuccess => { t with success := true }
  | .markError k => { t with success := false, errorType := some k }
  | .setResponseSize n => { t with responseSize := n }
  | .setRetryCount n => { t with retryCount := n }

def runActions (t : TrackerState) (acts : List TrackAction) :
    TrackerState :=
  acts.foldl applyAction t

/-- Arguments of one `end_request` call (besides the request id). -/
structure EndRequestCall where
  success : Bool
  responseSize : Nat
  errorType : Option String
  retryCount : Nat
  deriving DecidableEq, Repr

def EndRequestCall.ofTracker (t : TrackerState) : EndRequestCall :=
  { success := t.success, responseSize := t.responseSize,
    errorType := t.errorType, retryCount := t.retryCount }

/-- `track_request` (lines 330-346): run the scope; on normal exit mark
success if the scope did not; on a raise record the exception's class
name via `mark_error` and re-raise; in both cases the `finally` block
calls `end_request` exactly once with the tracker's fields. -/
def trackRequest (acts : List TrackAction) (exit : Except PyExc Unit) :
    List EndRequestCall × Except PyExc Unit :=
  let t := runActions initTracker acts
  match exit with
  | .ok _ =>
      let t := if ¬ t.success then applyAction t .markSuccess else t
      ([EndRequestCall.ofTracker t], .ok ())
  | .error e =>
      let t := applyAction t (.markError e.cls.pyName)
      ([EndRequestCall.ofTracker t], .error e)

/-! ## HealthMonitor sweep (`src/health_monitor.py` lines 662-749)

`_evaluate_and_act` walks the checks of a health report; critical
checks dispatch through the fixed `action_map`, warnings are only
logged.  The monitor state tracked here is what the corrective actions
touch: the shared rate limiter's `current_delay`, the `max_memory_mb`
limit, the log of `cleanup_memory` invocations (with their `aggressive`
flag) and the log of dispatched action keys.  An action may itself
raise; the `try`/`except` around the dispatch swallows the exception (a
raising action is modelled as failing before mutating anything). -/

inductive CheckStatus where
  | ok
  | warning
  | critical
  deriving DecidableEq, Repr

/-- One entry of the health report's `checks` map: its name, status and
the `rss_mb` entry of its details (`details.get("rss_mb", 0)` in
`_action_cleanup_memory`; the memory check stores the process's current
resident-set size there). -/
structure CheckResult where
  name : String
  status : CheckStatus
  rssMb : ℚ
  deriving DecidableEq, Repr

structure MonitorState where
  maxMemoryMb : ℚ
  limiterDelay : ℚ
  cleanupCalls : List Bool
  dispatched : List String
  deriving DecidableEq, Repr

/-- `_handle_critical_condition`'s `action_map` (lines 684-688). -/
def actionMap (checkName : String) : Option String :=
  if checkName = "memory_usage" then some "high_memory"
  else if checkName = "request_performance" then some "poor_performance"
  else if checkName = "error_rates" then some "high_error_rate"
  else none

/-- `_action_cleanup_memory` (lines 705-717): invoke
`cleanup_memory(aggressive = rss_mb > 0.95 * max_memory_mb)`. -/
def actionCleanupMemory (st : MonitorState) (c : CheckResult) :
    MonitorState :=
  let aggressive : Bool := decide (st.maxMemoryMb * (95 / 100) < c.rssMb)
  { st with cleanupCalls := st.cleanupCalls ++ [aggressive] }

/-- `_action_adjust_rate_limiting` (lines 719-733): double the rate
limiter's delay, capped at 30 s. -/
def actionAdjustRateLimiting (st : MonitorState) (_c : CheckResult) :
    MonitorState :=
  { st with limiterDelay := min (st.limiterDelay * 2) 30 }

/-- `_action_optimize_requests` (lines 735-749): multiply the rate
limiter's delay by 1.5, capped at 20 s (the `hasattr` guard on
`_semaphore` always holds for an `AdaptiveRateLimiter`). -/
def actionOptimizeRequests (st : MonitorState) (_c : CheckResult) :
    MonitorState :=
  { st with limiterDelay := min (st.limiterDelay * (3 / 2)) 20 }

/-- Body of a registered corrective action; `raises key = true` models
the action raising an exception. -/
def runCorrectiveAction (raises : String → Bool) (key : String)
    (st : MonitorState) (c : CheckResult) : Except PyExc MonitorState :=
  if raises key then .error { cls := .exception, statusCode := none }
  else if key = "high_memory" then .ok (actionCleanupMemory st c)
  else if key = "high_error_rate" then .ok (actionAdjustRateLimiting st c)
  else if key = "poor_performance" then .ok (actionOptimizeRequests st c)
  else .ok st

/-- `_handle_critical_condition` (lines 675-695): look the check up in
the action map, record the dispatch, run the action inside
`try`/`except` — a raising action is caught and logged, leaving the
shared state as it was. -/
def handleCriticalCondition (raises : String → Bool) (st : MonitorState)
    (c : CheckResult) : MonitorState :=
  match actionMap c.name with
  | none => st
  | some key =>
      let st := { st with dispatched := st.dispatched ++ [key] }
      match runCorrectiveAction raises key st c with
      | .ok st' => st'
      | .error _ => st

/-- `_evaluate_and_act` (lines 662-673): one pass over the report's
checks; critical conditions dispatch corrective actions, warnings are
logged only. -/
def evaluateAndAct (raises : String → Bool) (st : MonitorState)
    (checks : List CheckResult) : MonitorState :=
  checks.foldl
    (fun st c =>
      match c.status with
      | .critical => handleCriticalCondition raises st c
      | _ => st)
    st

/-! ## Auxiliary definitions used only to state properties -/

/-- A sequence of `record_failure` calls at the given clock values. -/
def recordFailures (p : RetryPolicy) (st : RetryState) (ts : List ℚ) :
    RetryState :=
  ts.foldl (recordFailure p) st

/-- Fibonacci numbers as the specification words them:
`fib(1) = fib(2) = 1`, each later value the sum of the two before it
(so `specFib 0 = 0`; attempts are 1-indexed and never reach it). -/
def specFib : Nat → Nat
  | 0 => 0
  | 1 => 1
  | n + 2 => specFib n + specFib (n + 1)

/-- The spec's per-strategy base delay, written exactly as §4.1 gives
it (natural-number exponent and the spec's Fibonacci numbers). -/
def specBaseDelay (p : RetryPolicy) (attempt : Nat) : ℚ :=
  match p.backoffStrategy with
  | .fixed => p.baseDelay
  | .linear => p.baseDelay * attempt
  | .exponential => p.baseDelay * (2 : ℚ) ^ (attempt - 1)
  | .fibonacci => p.baseDelay * specFib attempt

/-! # Theorems -/

/-! ## Helper lemmas about `recordFailure` and `shouldRetry` -/

theorem recordFailure_failureCount (p : RetryPolicy) (st : RetryState)
    (now : ℚ) :
    (recordFailure p st now).failureCount = st.failureCount + 1 := by
  simp only [recordFailure]
  split <;> rfl

theorem recordFailure_lastFailureTime (p : RetryPolicy) (st : RetryState)
    (now : ℚ) :
    (recordFailure p st now).lastFailureTime = now := by
  simp only [recordFailure]
  split <;> rfl

theorem recordFailure_circuitOpen_of_lt (p : RetryPolicy)
    (st : RetryState) (now : ℚ)
    (h : st.failureCount + 1 < p.circuitBreakerThreshold) :
    (recordFailure p st now).circuitOpen = st.circuitOpen := by
  simp only [recordFailure]
  split
  · omega
  · rfl

theorem recordFailure_circuitOpen_of_ge (p : RetryPolicy)
    (st : RetryState) (now : ℚ)
    (h : p.circuitBreakerThreshold ≤ st.failureCount + 1) :
    (recordFailure p st now).circuitOpen = true := by
  simp only [recordFailure]
  split
  · rfl
  · omega

theorem shouldRetry_of_closed (p : RetryPolicy) (st : RetryState)
    (e : PyExc) (attempt : Nat) (now : ℚ) (h : st.circuitOpen = false) :
    shouldRetry p st e attempt now = (shouldRetryEval p e attempt, st) := by
  simp [shouldRetry, h]

/-! ## C3: evaluation order of `should_retry` -/

/-- C3 (counterexample): the claim asserts that an error whose carried
HTTP status is in `retryableStatusCodes`, matching neither exception
list, is retried *regardless of the error's kind*.  The code guards the
status-code check with `isinstance(exception, NetworkException)`: a bare
`CrawlerBaseException` carrying `status_code = 429` under the default
policy (attempt 1 of 3, circuit closed) satisfies every hypothesis of
the claim's final sentence yet `should_retry` returns `False`. -/
theorem shouldRetry_statusCode_kind_counterexample :
    (shouldRetry defaultPolicy initialRetryState
        { cls := .crawlerBaseException, statusCode := some 429 } 1 0).1
      = false ∧
    defaultPolicy.retryOnStatusCodes.contains 429 = true ∧
    matchesAny { cls := .crawlerBaseException, statusCode := some 429 }
        defaultPolicy.retryableExceptions = false ∧
    matchesAny { cls := .crawlerBaseException, statusCode := some 429 }
        defaultPolicy.nonRetryableExceptions = false ∧
    1 < defaultPolicy.maxAttempts ∧
    initialRetryState.circuitOpen = false := by
  decide

/-- C3 (amended): `should_retry` evaluates in the fixed order — circuit
breaker, attempt limit, non-retryable kinds (taking precedence over the
retryable set), retryable kinds, HTTP status codes — but the
status-code clause applies only to `NetworkException` instances: a
NetworkException-kind error carrying a status in `retryableStatusCodes`
that matches neither exception list is retried (given
`attempt < maxAttempts` and a closed circuit), while an error that is
not a `NetworkException` instance and matches neither list is never
retried, whatever status it carries. -/
theorem shouldRetry_evaluation_order :
    (∀ (p : RetryPolicy) (st : RetryState) (e : PyExc) (attempt : Nat)
        (now : ℚ), st.circuitOpen = true → now - st.lastFailureTime ≤ 60 →
        (shouldRetry p st e attempt now).1 = false) ∧
    (∀ (p : RetryPolicy) (st : RetryState) (e : PyExc) (attempt : Nat)
        (now : ℚ), st.circuitOpen = false → p.maxAttempts ≤ attempt →
        (shouldRetry p st e attempt now).1 = false) ∧
    (∀ (p : RetryPolicy) (st : RetryState) (e : PyExc) (attempt : Nat)
        (now : ℚ), st.circuitOpen = false →
        matchesAny e p.nonRetryableExceptions = true →
        (shouldRetry p st e attempt now).1 = false) ∧
    (∀ (p : RetryPolicy) (st : RetryState) (e : PyExc) (attempt : Nat)
        (now : ℚ), st.circuitOpen = false → attempt < p.maxAttempts →
        matchesAny e p.nonRetryableExceptions = false →
        matchesAny e p.retryableExceptions = true →
        (shouldRetry p st e attempt now).1 = true) ∧
    (∀ (p : RetryPolicy) (st : RetryState) (e : PyExc) (attempt : Nat)
        (now : ℚ) (s : Int), st.circuitOpen = false →
        attempt < p.maxAttempts →
        matchesAny e p.nonRetryableExceptions = false →
        matchesAny e p.retryableExceptions = false →
        isInstanceOf e.cls .networkException = true →
        e.statusCode = some s → p.retryOnStatusCodes.contains s = true →
        (shouldRetry p st e attempt now).1 = true) ∧
    (∀ (p : RetryPolicy) (st : RetryState) (e : PyExc) (attempt : Nat)
        (now : ℚ), st.circuitOpen = false →
        matchesAny e p.retryableExceptions = false →
        isInstanceOf e.cls .networkException = false →
        (shouldRetry p st e attempt now).1 = false) := by
  refine ⟨?_, ?_, ?_, ?_, ?_, ?_⟩
  · intro p st e attempt now h1 h2
    simp [shouldRetry, h1, not_lt.mpr h2]
  · intro p st e attempt now h1 h2
    simp [shouldRetry, shouldRetryEval, h1, h2]
  · intro p st e attempt now h1 h2
    simp [shouldRetry, shouldRetryEval, h1, h2]
  · intro p st e attempt now h1 h2 h3 h4
    simp [shouldRetry, shouldRetryEval, h1, h2, h3, h4, not_le.mpr h2]
  · intro p st e attempt now s h1 h2 h3 h4 h5 h6 h7
    have hmem : s ∈ p.retryOnStatusCodes := by simpa using h7
    simp [shouldRetry, shouldRetryEval, h1, h3, h4, h5, h6, hmem,
      not_le.mpr h2]
  · intro p st e attempt now h1 h2 h3
    simp only [shouldRetry_of_closed p st e attempt now h1,
      shouldRetryEval, h2, h3]
    split <;> simp

/-- Witness for `shouldRetry_evaluation_order`: its status-code clause
applied to a `NetworkException` carrying status 429 under a policy
whose retryable list was overridden to `[RateLimitException]`. -/
theorem shouldRetry_evaluation_order_witness :
    (shouldRetry
        (mkRetryPolicy 3 1 60 .exponential true
          (some [.rateLimitException]) none none 5)
        initialRetryState
        { cls := .networkException, statusCode := some 429 } 1 0).1
      = true :=
  shouldRetry_evaluation_order.2.2.2.2.1
    (mkRetryPolicy 3 1 60 .exponential true
      (some [.rateLimitException]) none none 5)
    initialRetryState
    { cls := .networkException, statusCode := some 429 } 1 0 429
    (by decide) (by decide) (by decide) (by decide) (by decide) rfl
    (by decide)

/-! ## C7: Blocked errors and the non-retryable set -/

/-- C7 (counterexample): the claim says the effective non-retryable set
always contains the Blocked kind, however the policy is constructed.
`__init__` replaces the default list entirely when the caller supplies a
non-empty one: with `retryable_exceptions=[CrawlerBaseException]` and
`non_retryable_exceptions=[ValueError]`, a `BlockedException` on
attempt 1 of 3 is retried. -/
theorem blocked_retry_counterexample :
    (shouldRetry
        (mkRetryPolicy 3 1 60 .exponential true
          (some [.crawlerBaseException]) (some [.valueError]) none 5)
        initialRetryState
        { cls := .blockedException, statusCode := none } 1 0).1 = true := by
  decide

/-- C7 (amended): for every `RetryPolicy` constructed without a
caller-supplied non-retryable list (`None` or an empty list, so the
default `[BlockedException, ValueError, TypeError]` applies), a
Blocked-kind error is never retried: `should_retry` returns `false` for
it at every attempt, every clock value and every circuit-breaker state,
whatever the other constructor arguments are.  A caller-supplied
non-empty non-retryable list replaces the default entirely and need not
contain `BlockedException`. -/
theorem blocked_never_retried_default_config :
    ∀ (ma : Nat) (bd md : ℚ) (bs : BackoffStrategy) (j : Bool)
      (retryableArg : Option (List ExcClass))
      (nrArg : Option (List ExcClass)) (statusArg : Option (List Int))
      (thr : Nat) (st : RetryState) (e : PyExc) (attempt : Nat) (now : ℚ),
      (nrArg = none ∨ nrArg = some []) →
      e.cls = .blockedException →
      (shouldRetry
          (mkRetryPolicy ma bd md bs j retryableArg nrArg statusArg thr)
          st e attempt now).1 = false := by
  intro ma bd md bs j retryableArg nrArg statusArg thr st e attempt now
    hnr hcls
  have hdef :
      (mkRetryPolicy ma bd md bs j retryableArg nrArg statusArg
        thr).nonRetryableExceptions = defaultNonRetryable := by
    rcases hnr with h | h <;> simp [mkRetryPolicy, h, orDefault]
  have heval :
      shouldRetryEval
        (mkRetryPolicy ma bd md bs j retryableArg nrArg statusArg thr)
        e attempt = false := by
    simp only [shouldRetryEval, hdef]
    have hmatch : matchesAny e defaultNonRetryable = true := by
      simp [matchesAny, defaultNonRetryable, isInstanceOf, hcls]
    simp [hmatch]
  unfold shouldRetry
  split
  · split
    · simpa using heval
    · rfl
  · simpa using heval

/-- Witness for `blocked_never_retried_default_config`: the default
policy never retries a `BlockedException`, here at attempt 1. -/
theorem blocked_never_retried_default_config_witness :
    (shouldRetry (mkRetryPolicy 3 1 60 .exponential true none none none 5)
        initialRetryState
        { cls := .blockedException, statusCode := none } 1 0).1 = false :=
  blocked_never_retried_default_config 3 1 60 .exponential true none none
    none 5 initialRetryState
    { cls := .blockedException, statusCode := none } 1 0 (Or.inl rfl) rfl

/-! ## C8 and C10: the `track_request` scope -/

/-- C8: for every execution of the `track_request` scope — whatever
tracker mutations ran and however the scope exits — `end_request` is
invoked exactly once; if the scope raises an error and never called
`mark_success`, the single `end_request` call carries `success=false`
and the raised error's class name, and the error is re-raised. -/
theorem trackRequest_endRequest_once :
    (∀ (acts : List TrackAction) (exit : Except PyExc Unit),
        (trackRequest acts exit).1.length = 1) ∧
    (∀ (acts : List TrackAction) (e : PyExc),
        TrackAction.markSuccess ∉ acts →
        (∀ c ∈ (trackRequest acts (.error e)).1,
            c.success = false ∧ c.errorType = some e.cls.pyName) ∧
        (trackRequest acts (.error e)).2 = .error e) := by
  constructor
  · intro acts exit
    cases exit <;> simp [trackRequest]
  · intro acts e _hns
    refine ⟨?_, rfl⟩
    intro c hc
    simp only [trackRequest, List.mem_singleton] at hc
    subst hc
    simp [EndRequestCall.ofTracker, applyAction]

/-- Witness for `trackRequest_endRequest_once`: a scope that set a
response size and then raised a `NetworkException`. -/
theorem trackRequest_endRequest_once_witness :
    (∀ c ∈ (trackRequest [TrackAction.setResponseSize 7]
        (.error { cls := .networkException, statusCode := some 500 })).1,
        c.success = false ∧ c.errorType = some "NetworkException") ∧
    (trackRequest [TrackAction.setResponseSize 7]
        (.error { cls := .networkException, statusCode := some 500 })).2
      = .error { cls := .networkException, statusCode := some 500 } :=
  trackRequest_endRequest_once.2 [TrackAction.setResponseSize 7]
    { cls := .networkException, statusCode := some 500 } (by decide)

/-- C10: on every normal exit of the `track_request` scope the recorded
success flag is `true` — even when the scope never called
`mark_success`, and even when it called `mark_error` without a later
`mark_success` (the recorded error kind then still carries the
`mark_error` value); `success=false` is recorded only when the scope
exits by raising. -/
theorem trackRequest_normal_exit_success :
    (∀ (acts : List TrackAction),
        ∀ c ∈ (trackRequest acts (.ok ())).1, c.success = true) ∧
    ((trackRequest [TrackAction.markError "ParsingException"]
        (.ok ())).1 =
      [{ success := true, responseSize := 0,
         errorType := some "ParsingException", retryCount := 0 }]) ∧
    (∀ (acts : List TrackAction) (e : PyExc),
        ∀ c ∈ (trackRequest acts (Except.error e)).1,
        c.success = false) := by
  refine ⟨?_, by decide, ?_⟩
  · intro acts c hc
    simp only [trackRequest, List.mem_singleton] at hc
    subst hc
    by_cases h : (runActions initTracker acts).success
    · simp [h, EndRequestCall.ofTracker]
    · simp [h, EndRequestCall.ofTracker, applyAction]
  · intro acts e c hc
    simp only [trackRequest, List.mem_singleton] at hc
    subst hc
    simp [EndRequestCall.ofTracker, applyAction]

/-- Witness for `trackRequest_normal_exit_success`: a scope that ran no
tracker mutations and returned normally records `success=true`. -/
theorem trackRequest_normal_exit_success_witness :
    ∀ c ∈ (trackRequest [] (.ok ())).1, c.success = true :=
  trackRequest_normal_exit_success.1 []

/-! ## C4: circuit-breaker lifecycle -/

theorem recordFailures_append (p : RetryPolicy) (st : RetryState)
    (ts : List ℚ) (t : ℚ) :
    recordFailures p st (ts ++ [t]) =
      recordFailure p (recordFailures p st ts) t := by
  simp [recordFailures, List.foldl_append]

theorem recordFailures_failureCount (p : RetryPolicy) (ts : List ℚ) :
    ∀ st : RetryState,
      (recordFailures p st ts).failureCount = st.failureCount + ts.length := by
  induction ts with
  | nil => intro st; simp [recordFailures]
  | cons t ts ih =>
      intro st
      simp only [recordFailures, List.foldl_cons] at ih ⊢
      rw [ih, recordFailure_failureCount]
      simp
      omega

/-- C4: after `circuitBreakerThreshold` consecutive `record_failure`
calls from a clean state, the circuit is open, the failure count equals
the threshold and the last-failure stamp is the last call's clock value;
while the circuit is open and fewer than 60 seconds have elapsed since
the last failure, `should_retry` is `false` for every error and attempt;
once strictly more than 60 seconds have elapsed, the very next
`should_retry` call closes the circuit, zeroes the failure count and
resumes normal evaluation; and `record_success` always zeroes the
failure count and closes the circuit. -/
theorem circuit_breaker_lifecycle :
    (∀ (p : RetryPolicy) (ts : List ℚ) (t : ℚ),
        (ts ++ [t]).length = p.circuitBreakerThreshold →
        (recordFailures p initialRetryState (ts ++ [t])).circuitOpen
            = true ∧
        (recordFailures p initialRetryState (ts ++ [t])).failureCount
            = p.circuitBreakerThreshold ∧
        (recordFailures p initialRetryState (ts ++ [t])).lastFailureTime
            = t) ∧
    (∀ (p : RetryPolicy) (st : RetryState) (e : PyExc) (attempt : Nat)
        (now : ℚ), st.circuitOpen = true →
        now - st.lastFailureTime < 60 →
        (shouldRetry p st e attempt now).1 = false) ∧
    (∀ (p : RetryPolicy) (st : RetryState) (e : PyExc) (attempt : Nat)
        (now : ℚ), st.circuitOpen = true →
        60 < now - st.lastFailureTime →
        shouldRetry p st e attempt now =
          (shouldRetryEval p e attempt,
           { failureCount := 0, circuitOpen := false,
             lastFailureTime := st.lastFailureTime })) ∧
    (∀ st : RetryState, (recordSuccess st).failureCount = 0 ∧
        (recordSuccess st).circuitOpen = false) := by
  refine ⟨?_, ?_, ?_, ?_⟩
  · intro p ts t hlen
    rw [recordFailures_append]
    have hmid :
        (recordFailures p initialRetryState ts).failureCount = ts.length := by
      simpa [initialRetryState] using
        recordFailures_failureCount p ts initialRetryState
    have hthr : p.circuitBreakerThreshold ≤
        (recordFailures p initialRetryState ts).failureCount + 1 := by
      simp only [List.length_append, List.length_singleton] at hlen
      omega
    refine ⟨recordFailure_circuitOpen_of_ge _ _ _ hthr, ?_,
      recordFailure_lastFailureTime _ _ _⟩
    rw [recordFailure_failureCount, hmid]
    simp only [List.length_append, List.length_singleton] at hlen
    omega
  · intro p st e attempt now h1 h2
    simp [shouldRetry, h1, not_lt.mpr (le_of_lt h2)]
  · intro p st e attempt now h1 h2
    simp [shouldRetry, h1, h2]
  · intro st
    exact ⟨rfl, rfl⟩

/-- Witness for `circuit_breaker_lifecycle`: threshold 2, failures at
times 5 and 10; the circuit is open with `shouldRetry` false at time 40
(30 s elapsed), and at time 71 (61 s elapsed) it resets and evaluates a
retryable `NetworkException` normally. -/
theorem circuit_breaker_lifecycle_witness :
    ((recordFailures (mkRetryPolicy 3 1 60 .exponential true none none
        none 2) initialRetryState ([5] ++ [10])).circuitOpen = true ∧
      (recordFailures (mkRetryPolicy 3 1 60 .exponential true none none
        none 2) initialRetryState ([5] ++ [10])).failureCount = 2 ∧
      (recordFailures (mkRetryPolicy 3 1 60 .exponential true none none
        none 2) initialRetryState ([5] ++ [10])).lastFailureTime = 10) ∧
    (shouldRetry (mkRetryPolicy 3 1 60 .exponential true none none none 2)
        { failureCount := 2, circuitOpen := true, lastFailureTime := 10 }
        { cls := .networkException, statusCode := none } 1 40).1 = false ∧
    shouldRetry (mkRetryPolicy 3 1 60 .exponential true none none none 2)
        { failureCount := 2, circuitOpen := true, lastFailureTime := 10 }
        { cls := .networkException, statusCode := none } 1 71 =
      (shouldRetryEval (mkRetryPolicy 3 1 60 .exponential true none none
          none 2) { cls := .networkException, statusCode := none } 1,
       { failureCount := 0, circuitOpen := false, lastFailureTime := 10 }) :=
  ⟨circuit_breaker_lifecycle.1 (mkRetryPolicy 3 1 60 .exponential true
      none none none 2) [5] 10 (by decide),
   circuit_breaker_lifecycle.2.1 (mkRetryPolicy 3 1 60 .exponential true
      none none none 2)
      { failureCount := 2, circuitOpen := true, lastFailureTime := 10 }
      { cls := .networkException, statusCode := none } 1 40 rfl
      (by norm_num),
   circuit_breaker_lifecycle.2.2.1 (mkRetryPolicy 3 1 60 .exponential
      true none none none 2)
      { failureCount := 2, circuitOpen := true, lastFailureTime := 10 }
      { cls := .networkException, statusCode := none } 1 71 rfl
      (by norm_num)⟩

/-! ## C1: concurrency cap of the AdaptiveRateLimiter -/

theorem semRun_inflight (tr : List LimiterEvent) :
    ∀ (p i s j : Nat), inflightAfter i tr = some j →
      semRun p tr = some s → s + j = p + i := by
  induction tr with
  | nil =>
      intro p i s j hi hs
      simp [inflightAfter] at hi
      simp [semRun] at hs
      omega
  | cons e es ih =>
      intro p i s j hi hs
      cases e with
      | acquire =>
          simp only [inflightAfter] at hi
          simp only [semRun, semStep] at hs
          by_cases hp : 0 < p
          · simp only [if_pos hp] at hs
            have := ih (p - 1) (i + 1) s j hi hs
            omega
          · simp [if_neg hp] at hs
      | release =>
          simp only [inflightAfter] at hi
          simp only [semRun, semStep] at hs
          cases i with
          | zero => simp at hi
          | succ h =>
              have := ih (p + 1) h s j hi hs
              omega

/-- C1: for every well-formed interleaving of completed `acquire` and
`release` calls on a limiter with `max_concurrent = N` (each `release`
matched by an earlier `acquire`), the number of in-flight holders never
exceeds `N` and always complements the semaphore's free permits; with
zero free permits (i.e. `N` holders) a further `acquire` cannot
complete, and the only event that produces a free permit — letting a
suspended acquirer return — is a `release`. -/
theorem limiter_concurrency_cap :
    (∀ (maxConcurrent : Nat) (tr : List LimiterEvent) (permits held : Nat),
        inflightAfter 0 tr = some held →
        semRun maxConcurrent tr = some permits →
        held ≤ maxConcurrent ∧ permits + held = maxConcurrent) ∧
    (semStep 0 .acquire = none) ∧
    (∀ (e : LimiterEvent) (q : Nat), semStep 0 e = some q → 0 < q →
        e = LimiterEvent.release) := by
  refine ⟨?_, rfl, ?_⟩
  · intro N tr permits held hi hs
    have := semRun_inflight tr N 0 permits held hi hs
    omega
  · intro e q hq _hpos
    cases e with
    | acquire => simp [semStep] at hq
    | release => rfl

/-- Witness for `limiter_concurrency_cap`: with `max_concurrent = 2`,
after two completed acquires and one release the trace has one holder
and one free permit. -/
theorem limiter_concurrency_cap_witness :
    (1 : Nat) ≤ 2 ∧ (1 : Nat) + 1 = 2 :=
  limiter_concurrency_cap.1 2
    [LimiterEvent.acquire, LimiterEvent.acquire, LimiterEvent.release]
    1 1 (by decide) (by decide)

/-! ## C5: shape, monotonicity and bound of `calculate_delay` -/

theorem fibAux_specFib (k : Nat) :
    ∀ n : Nat, fibAux k (specFib (n + 1)) (specFib (n + 2)) =
      specFib (n + 2 + k) := by
  induction k with
  | zero => intro n; rfl
  | succ k ih =>
      intro n
      have hsum : specFib (n + 1) + specFib (n + 2) = specFib (n + 3) := by
        rfl
      calc fibAux (k + 1) (specFib (n + 1)) (specFib (n + 2))
          = fibAux k (specFib (n + 2)) (specFib (n + 1) + specFib (n + 2)) :=
            rfl
        _ = fibAux k (specFib (n + 2)) (specFib (n + 3)) := by rw [hsum]
        _ = specFib (n + 2 + (k + 1)) := by
            have := ih (n + 1)
            rw [this]
            ring_nf

theorem fibonacci_eq_specFib : ∀ n : Nat, 1 ≤ n → fibonacci n = specFib n := by
  intro n hn
  match n, hn with
  | 1, _ => rfl
  | 2, _ => rfl
  | (m + 3), _ =>
      show fibonacci (m + 3) = specFib (m + 3)
      have h1 : fibonacci (m + 3) = fibAux (m + 1) 1 1 := by
        simp [fibonacci]
      have h2 : fibAux (m + 1) (specFib 1) (specFib 2) =
          specFib (2 + (m + 1)) := fibAux_specFib (m + 1) 0
      have h3 : specFib 1 = 1 := rfl
      have h4 : specFib 2 = 1 := rfl
      rw [h1]
      rw [h3, h4] at h2
      rw [h2]
      congr 1
      omega

theorem specFib_le_succ : ∀ n : Nat, specFib n ≤ specFib (n + 1) := by
  intro n
  match n with
  | 0 => decide
  | 1 => decide
  | (m + 2) =>
      show specFib (m + 2) ≤ specFib (m + 1) + specFib (m + 2)
      exact Nat.le_add_left _ _

/-- C5: with jitter disabled, `calculate_delay(attempt)` is the clamp to
`maxDelay` of the spec's per-strategy base value (`baseDelay`,
`baseDelay*attempt`, `baseDelay*2^(attempt-1)`, `baseDelay*fib(attempt)`
with `fib(1)=fib(2)=1`); for `attempt ≥ 1` and `baseDelay ≥ 0` the
jitter-free result is monotonically non-decreasing in `attempt` for the
Linear, Exponential and Fibonacci strategies; and for every strategy and
every jitter factor the result never exceeds `maxDelay`. -/
theorem calculateDelay_shape_monotone_bounded :
    (∀ (p : RetryPolicy) (attempt : Nat) (jf : ℚ), p.jitter = false →
        1 ≤ attempt →
        calculateDelay p attempt jf = min (specBaseDelay p attempt) p.maxDelay) ∧
    (∀ (p : RetryPolicy) (attempt : Nat) (jf : ℚ), p.jitter = false →
        1 ≤ attempt → 0 ≤ p.baseDelay →
        (p.backoffStrategy = .linear ∨ p.backoffStrategy = .exponential ∨
          p.backoffStrategy = .fibonacci) →
        calculateDelay p attempt jf ≤ calculateDelay p (attempt + 1) jf) ∧
    (∀ (p : RetryPolicy) (attempt : Nat) (jf : ℚ),
        calculateDelay p attempt jf ≤ p.maxDelay) := by
  refine ⟨?_, ?_, ?_⟩
  · intro p attempt jf hj ha
    obtain ⟨m, rfl⟩ : ∃ m, attempt = m + 1 := ⟨attempt - 1, by omega⟩
    simp only [calculateDelay, specBaseDelay, baseDelayValue, hj,
      if_neg (Bool.false_ne_true)]
    cases hbs : p.backoffStrategy with
    | fixed => rfl
    | linear => rfl
    | exponential =>
        have hz : ((m + 1 : Nat) : ℤ) - 1 = (m : ℤ) := by push_cast; ring
        have hn : (m + 1) - 1 = m := by omega
        rw [hz, hn, zpow_natCast]
    | fibonacci =>
        rw [fibonacci_eq_specFib (m + 1) (by omega)]
  · intro p attempt jf hj ha hbase hstrat
    obtain ⟨m, rfl⟩ : ∃ m, attempt = m + 1 := ⟨attempt - 1, by omega⟩
    simp only [calculateDelay, hj, if_neg (Bool.false_ne_true)]
    refine min_le_min ?_ le_rfl
    rcases hstrat with h | h | h <;> simp only [baseDelayValue, h]
    · refine mul_le_mul_of_nonneg_left ?_ hbase
      push_cast
      linarith
    · refine mul_le_mul_of_nonneg_left ?_ hbase
      have hz1 : ((m + 1 : Nat) : ℤ) - 1 = (m : ℤ) := by push_cast; ring
      have hz2 : ((m + 1 + 1 : Nat) : ℤ) - 1 = ((m + 1 : Nat) : ℤ) := by
        push_cast; ring
      rw [hz1, hz2, zpow_natCast, zpow_natCast]
      exact pow_le_pow_right₀ one_le_two (by omega)
    · refine mul_le_mul_of_nonneg_left ?_ hbase
      rw [fibonacci_eq_specFib (m + 1) (by omega),
        fibonacci_eq_specFib (m + 2) (by omega)]
      exact_mod_cast specFib_le_succ (m + 1)
  · intro p attempt jf
    exact min_le_right _ _

/-- Witness for `calculateDelay_shape_monotone_bounded`: the Fibonacci
strategy without jitter at base delay 2, attempts 4 and 5. -/
theorem calculateDelay_shape_monotone_bounded_witness :
    calculateDelay
        (mkRetryPolicy 3 2 60 .fibonacci false none none none 5) 4 1 =
      min (specBaseDelay
        (mkRetryPolicy 3 2 60 .fibonacci false none none none 5) 4) 60 ∧
    calculateDelay
        (mkRetryPolicy 3 2 60 .fibonacci false none none none 5) 4 1 ≤
      calculateDelay
        (mkRetryPolicy 3 2 60 .fibonacci false none none none 5) 5 1 :=
  ⟨calculateDelay_shape_monotone_bounded.1
      (mkRetryPolicy 3 2 60 .fibonacci false none none none 5) 4 1 rfl
      (by omega),
   calculateDelay_shape_monotone_bounded.2.1
      (mkRetryPolicy 3 2 60 .fibonacci false none none none 5) 4 1 rfl
      (by omega) (by norm_num [mkRetryPolicy]) (Or.inr (Or.inr rfl))⟩

/-! ## C6: `release` windowing and self-tuning -/

theorem appendSample_preserves (s : LimiterState) (success : Bool)
    (rt : ℚ) :
    (appendSample s success rt).currentDelay = s.currentDelay ∧
    (appendSample s success rt).lastAdjustment = s.lastAdjustment ∧
    (appendSample s success rt).minDelay = s.minDelay ∧
    (appendSample s success rt).maxDelay = s.maxDelay := by
  simp only [appendSample]
  split <;> exact ⟨rfl, rfl, rfl, rfl⟩

theorem maybeAdjust_windows (s : LimiterState) (now : ℚ) :
    (maybeAdjustLimits s now).recentResponseTimes =
      s.recentResponseTimes ∧
    (maybeAdjustLimits s now).recentSuccessRates =
      s.recentSuccessRates := by
  simp only [maybeAdjustLimits]
  split
  · exact ⟨rfl, rfl⟩
  split
  · exact ⟨rfl, rfl⟩
  split
  · exact ⟨rfl, rfl⟩
  split
  · exact ⟨rfl, rfl⟩
  split
  · exact ⟨rfl, rfl⟩
  · exact ⟨rfl, rfl⟩

theorem maybeAdjust_cooldown (s : LimiterState) (now : ℚ)
    (h : now - s.lastAdjustment < 30) : maybeAdjustLimits s now = s := by
  simp only [maybeAdjustLimits]
  rw [if_pos h]

theorem maybeAdjust_insufficient (s : LimiterState) (now : ℚ)
    (h : s.recentResponseTimes.length < 10) :
    maybeAdjustLimits s now = s := by
  simp only [maybeAdjustLimits]
  split
  · rfl
  · rfl

theorem maybeAdjust_rule1 (s : LimiterState) (now : ℚ)
    (h1 : 30 ≤ now - s.lastAdjustment)
    (h2 : 10 ≤ s.recentResponseTimes.length)
    (h3 : windowSuccessRate s < 7 / 10) :
    maybeAdjustLimits s now =
      { s with currentDelay := min (s.currentDelay * (3 / 2)) s.maxDelay,
               lastAdjustment := now } := by
  simp only [maybeAdjustLimits]
  rw [if_neg (not_lt.mpr h1), if_neg (not_lt.mpr h2), if_pos h3]

theorem maybeAdjust_rule2 (s : LimiterState) (now : ℚ)
    (h1 : 30 ≤ now - s.lastAdjustment)
    (h2 : 10 ≤ s.recentResponseTimes.length)
    (h3 : ¬ windowSuccessRate s < 7 / 10)
    (h4 : 5000 < windowAvgResponse s) :
    maybeAdjustLimits s now =
      { s with currentDelay := min (s.currentDelay * (6 / 5)) s.maxDelay,
               lastAdjustment := now } := by
  simp only [maybeAdjustLimits]
  rw [if_neg (not_lt.mpr h1), if_neg (not_lt.mpr h2), if_neg h3,
    if_pos h4]

theorem maybeAdjust_rule3 (s : LimiterState) (now : ℚ)
    (h1 : 30 ≤ now - s.lastAdjustment)
    (h2 : 10 ≤ s.recentResponseTimes.length)
    (h3 : ¬ windowSuccessRate s < 7 / 10)
    (h4 : ¬ 5000 < windowAvgResponse s)
    (h5 : 19 / 20 < windowSuccessRate s)
    (h6 : windowAvgResponse s < 2000) :
    maybeAdjustLimits s now =
      { s with currentDelay := max (s.currentDelay * (9 / 10)) s.minDelay,
               lastAdjustment := now } := by
  simp only [maybeAdjustLimits]
  rw [if_neg (not_lt.mpr h1), if_neg (not_lt.mpr h2), if_neg h3,
    if_neg h4, if_pos ⟨h5, h6⟩]

theorem maybeAdjust_noMatch (s : LimiterState) (now : ℚ)
    (h3 : ¬ windowSuccessRate s < 7 / 10)
    (h4 : ¬ 5000 < windowAvgResponse s)
    (h5 : ¬ (19 / 20 < windowSuccessRate s ∧ windowAvgResponse s < 2000)) :
    maybeAdjustLimits s now = s := by
  simp only [maybeAdjustLimits]
  split
  · rfl
  split
  · rfl
  rfl

/-- C6: `release(success, response_time_ms)` appends the sample to both
rolling windows (FIFO, bounded to 50, oldest evicted) and runs the
self-tuning check, which never touches the windows and leaves
`current_delay` and the adjustment stamp unchanged unless at least 30
seconds have elapsed since the last adjustment and the (post-append)
window holds at least 10 samples; when eligible, exactly the first
matching rule fires — success rate `< 0.70` sets the delay to
`min(D*1.5, maxDelay)`, else average response time `> 5000` sets
`min(D*1.2, maxDelay)`, else success rate `> 0.95` with average `< 2000`
sets `max(D*0.9, minDelay)`, else nothing changes — and the adjustment
timestamp is set to `now` exactly when a rule fires. -/
theorem release_selfTuning :
    (∀ (s : LimiterState) (success : Bool) (rt : ℚ),
        s.recentResponseTimes.length < 50 →
        (appendSample s success rt).recentResponseTimes =
          s.recentResponseTimes ++ [rt] ∧
        (appendSample s success rt).recentSuccessRates =
          s.recentSuccessRates ++ [if success then 1 else 0]) ∧
    (∀ (s : LimiterState) (success : Bool) (rt : ℚ),
        50 ≤ s.recentResponseTimes.length →
        (appendSample s success rt).recentResponseTimes =
          (s.recentResponseTimes ++ [rt]).tail ∧
        (appendSample s success rt).recentSuccessRates =
          (s.recentSuccessRates ++ [if success then 1 else 0]).tail) ∧
    (∀ (s : LimiterState) (success : Bool) (rt now : ℚ),
        s.recentResponseTimes.length ≤ 50 →
        (releaseUpdate s success rt now).recentResponseTimes.length
          ≤ 50) ∧
    (∀ (s : LimiterState) (success : Bool) (rt now : ℚ),
        (releaseUpdate s success rt now).recentResponseTimes =
          (appendSample s success rt).recentResponseTimes ∧
        (releaseUpdate s success rt now).recentSuccessRates =
          (appendSample s success rt).recentSuccessRates) ∧
    (∀ (s : LimiterState) (success : Bool) (rt now : ℚ),
        now - s.lastAdjustment < 30 →
        (releaseUpdate s success rt now).currentDelay = s.currentDelay ∧
        (releaseUpdate s success rt now).lastAdjustment =
          s.lastAdjustment) ∧
    (∀ (s : LimiterState) (success : Bool) (rt now : ℚ),
        (appendSample s success rt).recentResponseTimes.length < 10 →
        (releaseUpdate s success rt now).currentDelay = s.currentDelay ∧
        (releaseUpdate s success rt now).lastAdjustment =
          s.lastAdjustment) ∧
    (∀ (s : LimiterState) (success : Bool) (rt now : ℚ),
        30 ≤ now - s.lastAdjustment →
        10 ≤ (appendSample s success rt).recentResponseTimes.length →
        windowSuccessRate (appendSample s success rt) < 7 / 10 →
        (releaseUpdate s success rt now).currentDelay =
          min (s.currentDelay * (3 / 2)) s.maxDelay ∧
        (releaseUpdate s success rt now).lastAdjustment = now) ∧
    (∀ (s : LimiterState) (success : Bool) (rt now : ℚ),
        30 ≤ now - s.lastAdjustment →
        10 ≤ (appendSample s success rt).recentResponseTimes.length →
        ¬ windowSuccessRate (appendSample s success rt) < 7 / 10 →
        5000 < windowAvgResponse (appendSample s success rt) →
        (releaseUpdate s success rt now).currentDelay =
          min (s.currentDelay * (6 / 5)) s.maxDelay ∧
        (releaseUpdate s success rt now).lastAdjustment = now) ∧
    (∀ (s : LimiterState) (success : Bool) (rt now : ℚ),
        30 ≤ now - s.lastAdjustment →
        10 ≤ (appendSample s success rt).recentResponseTimes.length →
        ¬ windowSuccessRate (appendSample s success rt) < 7 / 10 →
        ¬ 5000 < windowAvgResponse (appendSample s success rt) →
        19 / 20 < windowSuccessRate (appendSample s success rt) →
        windowAvgResponse (appendSample s success rt) < 2000 →
        (releaseUpdate s success rt now).currentDelay =
          max (s.currentDelay * (9 / 10)) s.minDelay ∧
        (releaseUpdate s success rt now).lastAdjustment = now) ∧
    (∀ (s : LimiterState) (success : Bool) (rt now : ℚ),
        ¬ windowSuccessRate (appendSample s success rt) < 7 / 10 →
        ¬ 5000 < windowAvgResponse (appendSample s success rt) →
        ¬ (19 / 20 < windowSuccessRate (appendSample s success rt) ∧
            windowAvgResponse (appendSample s success rt) < 2000) →
        (releaseUpdate s success rt now).currentDelay = s.currentDelay ∧
        (releaseUpdate s success rt now).lastAdjustment =
          s.lastAdjustment) := by
  refine ⟨?_, ?_, ?_, ?_, ?_, ?_, ?_, ?_, ?_, ?_⟩
  · intro s success rt h
    simp only [appendSample]
    rw [if_neg (by simp; omega)]
    exact ⟨rfl, rfl⟩
  · intro s success rt h
    simp only [appendSample]
    rw [if_pos (by simp; omega)]
    exact ⟨rfl, rfl⟩
  · intro s success rt now h
    have hw := maybeAdjust_windows (appendSample s success rt) now
    unfold releaseUpdate
    rw [hw.1]
    simp only [appendSample]
    split
    · next hgt =>
        simp only [List.length_tail, List.length_append,
          List.length_singleton]
        omega
    · next hle =>
        simp only [List.length_append, List.length_singleton] at hle ⊢
        omega
  · intro s success rt now
    exact maybeAdjust_windows (appendSample s success rt) now
  · intro s success rt now h
    have hp := appendSample_preserves s success rt
    have : maybeAdjustLimits (appendSample s success rt) now =
        appendSample s success rt :=
      maybeAdjust_cooldown _ _ (by rw [hp.2.1]; exact h)
    unfold releaseUpdate
    rw [this, hp.1, hp.2.1]
    exact ⟨rfl, rfl⟩
  · intro s success rt now h
    have hp := appendSample_preserves s success rt
    have : maybeAdjustLimits (appendSample s success rt) now =
        appendSample s success rt := maybeAdjust_insufficient _ _ h
    unfold releaseUpdate
    rw [this, hp.1, hp.2.1]
    exact ⟨rfl, rfl⟩
  · intro s success rt now h1 h2 h3
    have hp := appendSample_preserves s success rt
    unfold releaseUpdate
    rw [maybeAdjust_rule1 _ _ (by rw [hp.2.1]; exact h1) h2 h3]
    rw [hp.1, hp.2.2.2]
    exact ⟨rfl, rfl⟩
  · intro s success rt now h1 h2 h3 h4
    have hp := appendSample_preserves s success rt
    unfold releaseUpdate
    rw [maybeAdjust_rule2 _ _ (by rw [hp.2.1]; exact h1) h2 h3 h4]
    rw [hp.1, hp.2.2.2]
    exact ⟨rfl, rfl⟩
  · intro s success rt now h1 h2 h3 h4 h5 h6
    have hp := appendSample_preserves s success rt
    unfold releaseUpdate
    rw [maybeAdjust_rule3 _ _ (by rw [hp.2.1]; exact h1) h2 h3 h4 h5 h6]
    rw [hp.1, hp.2.2.1, hp.2.2.2]
    exact ⟨rfl, rfl⟩
  · intro s success rt now h3 h4 h5
    have hp := appendSample_preserves s success rt
    unfold releaseUpdate
    rw [maybeAdjust_noMatch _ _ h3 h4 h5]
    rw [hp.1, hp.2.1]
    exact ⟨rfl, rfl⟩

/-- Witness for `release_selfTuning`: ten samples at success rate 1/2,
cool-down expired; the eligible `release` fires the 1.5× rule. -/
theorem release_selfTuning_witness :
    (releaseUpdate
        { currentDelay := 1, minDelay := 1 / 10, maxDelay := 30,
          recentResponseTimes := List.replicate 10 1000,
          recentSuccessRates := [1, 0, 1, 0, 1, 0, 1, 0, 1, 0],
          lastAdjustment := 0 } false 1000 31).currentDelay =
      min ((1 : ℚ) * (3 / 2)) 30 ∧
    (releaseUpdate
        { currentDelay := 1, minDelay := 1 / 10, maxDelay := 30,
          recentResponseTimes := List.replicate 10 1000,
          recentSuccessRates := [1, 0, 1, 0, 1, 0, 1, 0, 1, 0],
          lastAdjustment := 0 } false 1000 31).lastAdjustment = 31 :=
  release_selfTuning.2.2.2.2.2.2.1
    { currentDelay := 1, minDelay := 1 / 10, maxDelay := 30,
      recentResponseTimes := List.replicate 10 1000,
      recentSuccessRates := [1, 0, 1, 0, 1, 0, 1, 0, 1, 0],
      lastAdjustment := 0 } false 1000 31 (by norm_num) (by decide)
    (by norm_num [appendSample, windowSuccessRate, List.replicate])

/-! ## C9: critical-condition dispatch and corrective actions -/

theorem runCorrectiveAction_dispatched (raises : String → Bool)
    (key : String) (st : MonitorState) (c : CheckResult)
    (st' : MonitorState)
    (h : runCorrectiveAction raises key st c = .ok st') :
    st'.dispatched = st.dispatched := by
  unfold runCorrectiveAction at h
  split at h
  · exact absurd h (by simp)
  split at h
  · cases h; rfl
  split at h
  · cases h; rfl
  split at h
  · cases h; rfl
  · cases h; rfl

theorem handleCritical_dispatched (raises : String → Bool)
    (st : MonitorState) (c : CheckResult) :
    (handleCriticalCondition raises st c).dispatched =
      st.dispatched ++ (actionMap c.name).toList := by
  unfold handleCriticalCondition
  cases hmap : actionMap c.name with
  | none => simp
  | some key =>
      simp only [Option.toList_some]
      cases hrun : runCorrectiveAction raises key
          { st with dispatched := st.dispatched ++ [key] } c with
      | ok st' =>
          simpa using runCorrectiveAction_dispatched raises key _ c st' hrun
      | error e => simp

theorem evaluateAndAct_dispatched (raises : String → Bool)
    (checks : List CheckResult) :
    ∀ st : MonitorState,
      (evaluateAndAct raises st checks).dispatched =
        st.dispatched ++ checks.filterMap
          (fun c => if c.status = .critical then actionMap c.name
                    else none) := by
  induction checks with
  | nil => intro st; simp [evaluateAndAct]
  | cons c cs ih =>
      intro st
      simp only [evaluateAndAct, List.foldl_cons] at ih ⊢
      cases hst : c.status with
      | critical =>
          rw [ih]
          rw [handleCritical_dispatched]
          simp [List.filterMap_cons, hst]
          cases actionMap c.name <;> simp
      | ok =>
          rw [ih]
          simp [List.filterMap_cons, hst]
      | warning =>
          rw [ih]
          simp [List.filterMap_cons, hst]

theorem runCorrectiveAction_raising (raises : String → Bool)
    (key : String) (st : MonitorState) (c : CheckResult)
    (h : raises key = true) :
    runCorrectiveAction raises key st c =
      .error { cls := .exception, statusCode := none } := by
  unfold runCorrectiveAction
  rw [if_pos h]


theorem handleCritical_memory (raises : String → Bool)
    (st : MonitorState) (c : CheckResult) (h1 : c.name = "memory_usage")
    (h3 : raises "high_memory" = false) :
    handleCriticalCondition raises st c =
      { st with dispatched := st.dispatched ++ ["high_memory"],
                cleanupCalls := st.cleanupCalls ++
                  [decide (st.maxMemoryMb * (95 / 100) < c.rssMb)] } := by
  unfold handleCriticalCondition
  have hmap : actionMap c.name = some "high_memory" := by rw [h1]; rfl
  simp only [hmap]
  unfold runCorrectiveAction
  rw [if_neg (by rw [h3]; exact Bool.false_ne_true), if_pos rfl]
  rfl

theorem handleCritical_errorRates (raises : String → Bool)
    (st : MonitorState) (c : CheckResult) (h1 : c.name = "error_rates")
    (h3 : raises "high_error_rate" = false) :
    handleCriticalCondition raises st c =
      { st with dispatched := st.dispatched ++ ["high_error_rate"],
                limiterDelay := min (st.limiterDelay * 2) 30 } := by
  unfold handleCriticalCondition
  have hmap : actionMap c.name = some "high_error_rate" := by
    rw [h1]; rfl
  simp only [hmap]
  unfold runCorrectiveAction
  rw [if_neg (by rw [h3]; exact Bool.false_ne_true),
    if_neg (by decide), if_pos rfl]
  rfl

theorem handleCritical_performance (raises : String → Bool)
    (st : MonitorState) (c : CheckResult)
    (h1 : c.name = "request_performance")
    (h3 : raises "poor_performance" = false) :
    handleCriticalCondition raises st c =
      { st with dispatched := st.dispatched ++ ["poor_performance"],
                limiterDelay := min (st.limiterDelay * (3 / 2)) 20 } := by
  unfold handleCriticalCondition
  have hmap : actionMap c.name = some "poor_performance" := by
    rw [h1]; rfl
  simp only [hmap]
  unfold runCorrectiveAction
  rw [if_neg (by rw [h3]; exact Bool.false_ne_true),
    if_neg (by decide), if_neg (by decide), if_pos rfl]
  rfl

theorem handleCritical_raising (raises : String → Bool)
    (st : MonitorState) (c : CheckResult) (hall : ∀ k, raises k = true) :
    (handleCriticalCondition raises st c).cleanupCalls =
        st.cleanupCalls ∧
    (handleCriticalCondition raises st c).limiterDelay =
        st.limiterDelay := by
  unfold handleCriticalCondition
  cases hmap : actionMap c.name with
  | none => exact ⟨rfl, rfl⟩
  | some key =>
      simp [runCorrectiveAction_raising raises key _ c (hall key)]

/-- C9: in a health sweep, every critical check triggers exactly one
dispatch through the fixed action map (`memory_usage → high_memory`,
`request_performance → poor_performance`, `error_rates →
high_error_rate`; other checks dispatch nothing) and warnings trigger
none; a critical `memory_usage` check invokes `cleanup_memory` once with
`aggressive` exactly when the reported rss exceeds `0.95 * maxMemoryMB`;
a critical `error_rates` check doubles the rate limiter's delay capped
at 30 s; a critical `request_performance` check multiplies it by 1.5
capped at 20 s; and a corrective action that raises is caught — the
sweep still completes, with the shared limiter/cleanup state left
untouched by the failing action. -/
theorem healthSweep_actions :
    (∀ (raises : String → Bool) (st : MonitorState)
        (checks : List CheckResult),
        (evaluateAndAct raises st checks).dispatched =
          st.dispatched ++ checks.filterMap
            (fun c => if c.status = .critical then actionMap c.name
                      else none)) ∧
    (∀ (raises : String → Bool) (st : MonitorState) (c : CheckResult),
        c.name = "memory_usage" → c.status = .critical →
        raises "high_memory" = false →
        (evaluateAndAct raises st [c]).cleanupCalls =
          st.cleanupCalls ++
            [decide (st.maxMemoryMb * (95 / 100) < c.rssMb)] ∧
        (evaluateAndAct raises st [c]).limiterDelay = st.limiterDelay) ∧
    (∀ (raises : String → Bool) (st : MonitorState) (c : CheckResult),
        c.name = "error_rates" → c.status = .critical →
        raises "high_error_rate" = false →
        (evaluateAndAct raises st [c]).limiterDelay =
          min (st.limiterDelay * 2) 30 ∧
        (evaluateAndAct raises st [c]).cleanupCalls = st.cleanupCalls) ∧
    (∀ (raises : String → Bool) (st : MonitorState) (c : CheckResult),
        c.name = "request_performance" → c.status = .critical →
        raises "poor_performance" = false →
        (evaluateAndAct raises st [c]).limiterDelay =
          min (st.limiterDelay * (3 / 2)) 20 ∧
        (evaluateAndAct raises st [c]).cleanupCalls = st.cleanupCalls) ∧
    (∀ (raises : String → Bool) (st : MonitorState) (c : CheckResult),
        c.status = .warning → evaluateAndAct raises st [c] = st) ∧
    (∀ (raises : String → Bool) (st : MonitorState)
        (checks : List CheckResult), (∀ k, raises k = true) →
        (evaluateAndAct raises st checks).cleanupCalls =
            st.cleanupCalls ∧
        (evaluateAndAct raises st checks).limiterDelay =
            st.limiterDelay) := by
  refine ⟨?_, ?_, ?_, ?_, ?_, ?_⟩
  · intro raises st checks
    exact evaluateAndAct_dispatched raises checks st
  · intro raises st c h1 h2 h3
    simp only [evaluateAndAct, List.foldl_cons, List.foldl_nil, h2]
    rw [handleCritical_memory raises st c h1 h3]
    exact ⟨rfl, rfl⟩
  · intro raises st c h1 h2 h3
    simp only [evaluateAndAct, List.foldl_cons, List.foldl_nil, h2]
    rw [handleCritical_errorRates raises st c h1 h3]
    exact ⟨rfl, rfl⟩
  · intro raises st c h1 h2 h3
    simp only [evaluateAndAct, List.foldl_cons, List.foldl_nil, h2]
    rw [handleCritical_performance raises st c h1 h3]
    exact ⟨rfl, rfl⟩
  · intro raises st c h
    simp [evaluateAndAct, h]
  · intro raises st checks hall
    induction checks generalizing st with
    | nil => simp [evaluateAndAct]
    | cons c cs ih =>
        simp only [evaluateAndAct, List.foldl_cons] at ih ⊢
        cases hst : c.status with
        | critical =>
            have hone := handleCritical_raising raises st c hall
            have := ih (handleCriticalCondition raises st c)
            rw [this.1, this.2, hone.1, hone.2]
            exact ⟨rfl, rfl⟩
        | ok => exact ih st
        | warning => exact ih st

/-- Witness for `healthSweep_actions`: a critical `memory_usage` check
reporting 600 MB rss against a 512 MB limit records one aggressive
cleanup and leaves the limiter delay alone. -/
theorem healthSweep_actions_witness :
    (evaluateAndAct (fun _ => false)
        { maxMemoryMb := 512, limiterDelay := 1, cleanupCalls := [],
          dispatched := [] }
        [{ name := "memory_usage", status := .critical,
           rssMb := 600 }]).cleanupCalls =
      [] ++ [decide ((512 : ℚ) * (95 / 100) < 600)] ∧
    (evaluateAndAct (fun _ => false)
        { maxMemoryMb := 512, limiterDelay := 1, cleanupCalls := [],
          dispatched := [] }
        [{ name := "memory_usage", status := .critical,
           rssMb := 600 }]).limiterDelay = 1 :=
  healthSweep_actions.2.1 (fun _ => false)
    { maxMemoryMb := 512, limiterDelay := 1, cleanupCalls := [],
      dispatched := [] }
    { name := "memory_usage", status := .critical, rssMb := 600 }
    rfl rfl rfl

/-! ## C2: attempt counts of `execute_with_retry` -/

theorem execFrom_allFail {α : Type} (p : RetryPolicy)
    (op : Nat → Except PyExc α) (times : Nat → ℚ) (e : Nat → PyExc)
    (hop : ∀ i, op i = .error (e i))
    (hr : ∀ i, matchesAny (e i) p.retryableExceptions = true)
    (hnr : ∀ i, matchesAny (e i) p.nonRetryableExceptions = false) :
    ∀ (fuel attempt : Nat) (st : RetryState) (lastE : Option PyExc),
      attempt + fuel = p.maxAttempts + 1 → 1 ≤ fuel →
      st.circuitOpen = false →
      st.failureCount + fuel < p.circuitBreakerThreshold →
      (execFrom p op times fuel attempt st lastE).result
          = .error (e p.maxAttempts) ∧
      (execFrom p op times fuel attempt st lastE).invocations = fuel ∧
      (execFrom p op times fuel attempt st lastE).successfulRetriesDelta
          = 0 := by
  intro fuel
  induction fuel with
  | zero => intro attempt st lastE _ h2 _ _; omega
  | succ f ih =>
      intro attempt st lastE hsum _ hopen hcnt
      have hst1open :
          (recordFailure p st (times attempt)).circuitOpen = false := by
        rw [recordFailure_circuitOpen_of_lt p st (times attempt)
          (by omega)]
        exact hopen
      simp only [execFrom, hop attempt]
      rw [shouldRetry_of_closed p _ (e attempt) attempt (times attempt)
        hst1open]
      by_cases hf : f = 0
      · subst hf
        have hat : attempt = p.maxAttempts := by omega
        have heval : shouldRetryEval p (e attempt) attempt = false := by
          simp [shouldRetryEval, hat]
        rw [heval]
        simp [hat]
      · have hat : attempt < p.maxAttempts := by omega
        have heval : shouldRetryEval p (e attempt) attempt = true := by
          simp [shouldRetryEval, hnr attempt, hr attempt, not_le.mpr hat]
        rw [heval]
        simp only [if_true]
        have hrec := ih (attempt + 1) (recordFailure p st (times attempt))
          (some (e attempt)) (by omega) (by omega) hst1open
          (by rw [recordFailure_failureCount]; omega)
        exact ⟨hrec.1, by simp only [hrec.2.1], hrec.2.2⟩

theorem execFrom_success {α : Type} (p : RetryPolicy)
    (op : Nat → Except PyExc α) (times : Nat → ℚ) (e : Nat → PyExc)
    (k : Nat) (v : α) (hk : op k = .ok v)
    (hop : ∀ i, i < k → op i = .error (e i))
    (hr : ∀ i, i < k → matchesAny (e i) p.retryableExceptions = true)
    (hnr : ∀ i, i < k →
      matchesAny (e i) p.nonRetryableExceptions = false)
    (hkmax : k ≤ p.maxAttempts) :
    ∀ (fuel attempt : Nat) (st : RetryState) (lastE : Option PyExc),
      attempt + fuel = p.maxAttempts + 1 →
      1 ≤ attempt → attempt ≤ k →
      st.circuitOpen = false →
      st.failureCount + fuel < p.circuitBreakerThreshold →
      (execFrom p op times fuel attempt st lastE).result = .ok v ∧
      (execFrom p op times fuel attempt st lastE).invocations
          = k + 1 - attempt ∧
      (execFrom p op times fuel attempt st lastE).successfulRetriesDelta
          = (if 1 < k then 1 else 0) := by
  intro fuel
  induction fuel with
  | zero => intro attempt st lastE h1 _ h3 _ _; omega
  | succ f ih =>
      intro attempt st lastE hsum hone hle hopen hcnt
      by_cases hak : attempt = k
      · subst hak
        simp only [execFrom, hk]
        refine ⟨?_, ?_, ?_⟩ <;> first | trivial | omega
      · have hlt : attempt < k := by omega
        have hst1open :
            (recordFailure p st (times attempt)).circuitOpen = false := by
          rw [recordFailure_circuitOpen_of_lt p st (times attempt)
            (by omega)]
          exact hopen
        simp only [execFrom, hop attempt hlt]
        rw [shouldRetry_of_closed p _ (e attempt) attempt (times attempt)
          hst1open]
        have hat : attempt < p.maxAttempts := by omega
        have heval : shouldRetryEval p (e attempt) attempt = true := by
          simp [shouldRetryEval, hnr attempt hlt, hr attempt hlt,
            not_le.mpr hat]
        rw [heval]
        simp only [if_true]
        have hrec := ih (attempt + 1) (recordFailure p st (times attempt))
          (some (e attempt)) (by omega) (by omega) (by omega) hst1open
          (by rw [recordFailure_failureCount]; omega)
        refine ⟨hrec.1, ?_, hrec.2.2⟩
        simp only [hrec.2.1]
        omega

/-- C2: for a policy with `maxAttempts = m` whose circuit breaker cannot
open during the run (`circuitBreakerThreshold > m`, failure counter
starting at 0, circuit closed), if the operation raises a retryable
(and not non-retryable) error on every invocation then
`execute_with_retry` invokes it exactly `m` times, raises the last
error, and increments no `successful_retries`; if instead the operation
succeeds on attempt `k ≤ m` after retryable failures, the result is
returned after exactly `k` invocations and `successful_retries` is
incremented exactly when `k > 1`. -/
theorem executeWithRetry_attempt_counts :
    (∀ (α : Type) (p : RetryPolicy) (op : Nat → Except PyExc α)
        (times : Nat → ℚ) (e : Nat → PyExc),
        1 ≤ p.maxAttempts →
        p.maxAttempts < p.circuitBreakerThreshold →
        (∀ i, op i = .error (e i)) →
        (∀ i, matchesAny (e i) p.retryableExceptions = true) →
        (∀ i, matchesAny (e i) p.nonRetryableExceptions = false) →
        (executeWithRetry p initialRetryState op times).result
            = .error (e p.maxAttempts) ∧
        (executeWithRetry p initialRetryState op times).invocations
            = p.maxAttempts ∧
        (executeWithRetry p initialRetryState op
            times).successfulRetriesDelta = 0) ∧
    (∀ (α : Type) (p : RetryPolicy) (op : Nat → Except PyExc α)
        (times : Nat → ℚ) (e : Nat → PyExc) (k : Nat) (v : α),
        1 ≤ k → k ≤ p.maxAttempts →
        p.maxAttempts < p.circuitBreakerThreshold →
        op k = .ok v →
        (∀ i, i < k → op i = .error (e i)) →
        (∀ i, i < k → matchesAny (e i) p.retryableExceptions = true) →
        (∀ i, i < k →
          matchesAny (e i) p.nonRetryableExceptions = false) →
        (executeWithRetry p initialRetryState op times).result = .ok v ∧
        (executeWithRetry p initialRetryState op times).invocations = k ∧
        (executeWithRetry p initialRetryState op
            times).successfulRetriesDelta = (if 1 < k then 1 else 0)) := by
  constructor
  · intro α p op times e hm hthr hop hr hnr
    exact execFrom_allFail p op times e hop hr hnr p.maxAttempts 1
      initialRetryState none (by omega) (by omega) rfl
      (by simp [initialRetryState]; omega)
  · intro α p op times e k v hk1 hkm hthr hk hop hr hnr
    unfold executeWithRetry
    have := execFrom_success p op times e k v hk hop hr hnr hkm
      p.maxAttempts 1 initialRetryState none (by omega) le_rfl hk1 rfl
      (by simp [initialRetryState]; omega)
    exact ⟨this.1, by rw [this.2.1]; omega, this.2.2⟩

/-- Witness for `executeWithRetry_attempt_counts`: `maxAttempts = 2`
with an operation that always raises a retryable `NetworkException` —
exactly 2 invocations and the error propagated. -/
theorem executeWithRetry_attempt_counts_witness :
    (executeWithRetry (mkRetryPolicy 2 1 10 .fixed false none none none 5)
        initialRetryState
        (fun _ => (.error { cls := .networkException, statusCode := none } :
          Except PyExc Nat))
        (fun _ => 0)).result =
      .error { cls := .networkException, statusCode := none } ∧
    (executeWithRetry (mkRetryPolicy 2 1 10 .fixed false none none none 5)
        initialRetryState
        (fun _ => (.error { cls := .networkException, statusCode := none } :
          Except PyExc Nat))
        (fun _ => 0)).invocations = 2 ∧
    (executeWithRetry (mkRetryPolicy 2 1 10 .fixed false none none none 5)
        initialRetryState
        (fun _ => (.error { cls := .networkException, statusCode := none } :
          Except PyExc Nat))
        (fun _ => 0)).successfulRetriesDelta = 0 :=
  executeWithRetry_attempt_counts.1 Nat
    (mkRetryPolicy 2 1 10 .fixed false none none none 5)
    (fun _ => .error { cls := .networkException, statusCode := none })
    (fun _ => 0)
    (fun _ => { cls := .networkException, statusCode := none })
    (by decide) (by decide) (fun _ => rfl)
    (by
      intro i
      show matchesAny { cls := .networkException, statusCode := none }
        (mkRetryPolicy 2 1 10 .fixed false none none none
          5).retryableExceptions = true
      decide)
    (by
      intro i
      show matchesAny { cls := .networkException, statusCode := none }
        (mkRetryPolicy 2 1 10 .fixed false none none none
          5).nonRetryableExceptions = false
      decide)
